import Mathlib

/-!
Shallow embedding of `src/main.js` (the `assertEquals` structural equality
checker) and proofs of its specified properties.

The JavaScript values the checker supports (spec §3) are: `null`, primitive
strings/numbers/booleans, arrays, and plain key/value records.  We embed them
as a mutual inductive family so that the comparison function is structurally
recursive and computable.  Records are association lists in insertion order,
matching the source's reliance on own-key enumeration order (spec §9).

JavaScript numbers are modelled by the integral doubles plus `NaN` — the only
numbers the program's data and the claims mention.  Strict equality `===` on
`NaN` is false, which the embedding preserves.
-/

/-- A JavaScript number as used by the program: an integral value or `NaN`.
`NaN` is not strictly equal to itself under `===`. -/
inductive JSNum where
  | nan : JSNum
  | int : Int → JSNum
deriving DecidableEq, Repr

mutual

/-- A legal input value (spec §3): null, a primitive, an array, or a record. -/
inductive Value where
  | vnull : Value
  | vstr : String → Value
  | vnum : JSNum → Value
  | vbool : Bool → Value
  | varr : ValueList → Value
  | vrec : FieldList → Value

/-- The ordered elements of an array value. -/
inductive ValueList where
  | nil : ValueList
  | cons : Value → ValueList → ValueList

/-- The fields of a record value, in key-enumeration (insertion) order. -/
inductive FieldList where
  | nil : FieldList
  | cons : String → Value → FieldList → FieldList

end

open Value ValueList FieldList

/-- Embeds `isPrimitive` from `src/main.js` lines 120-122:
`typeof` is `'string'`, `'number'` or `'boolean'`. -/
def isPrimitive : Value → Bool
  | vstr _ => true
  | vnum _ => true
  | vbool _ => true
  | _ => false

/-- Embeds `Array.isArray`. -/
def isArray : Value → Bool
  | varr _ => true
  | _ => false

/-- Embeds the check `=== null`. -/
def isNull : Value → Bool
  | vnull => true
  | _ => false

/-- JavaScript `typeof`: `'object'` for null, arrays and records;
the primitive kind name otherwise. -/
def typeofStr : Value → String
  | vnull => "object"
  | vstr _ => "string"
  | vnum _ => "number"
  | vbool _ => "boolean"
  | varr _ => "object"
  | vrec _ => "object"

/-- Embeds `getTypeName` from `src/main.js` lines 129-131:
`Array.isArray(value) ? 'Array' : typeof value === 'object' ?
value === null ? 'null' : 'Object' : typeof value`. -/
def getTypeName : Value → String
  | varr _ => "Array"
  | vnull => "null"
  | vrec _ => "Object"
  | v => typeofStr v

/-- The message thrown by `emitTypeError` (`src/main.js` lines 125-127). -/
def typeErrorMsg (expected actual : Value) : String :=
  "type " ++ getTypeName expected ++ " but found type " ++ getTypeName actual

/-- JavaScript string coercion of a value, as used by `+` concatenation in the
value-mismatch message (`src/main.js` line 41).  That line only ever coerces
primitives (the preceding `typeof` check forces `actual` to the same primitive
kind as `expected`); the non-primitive cases are unreachable from `_assertEquals`. -/
def displayString : Value → String
  | vstr s => s
  | vnum JSNum.nan => "NaN"
  | vnum (JSNum.int n) => toString n
  | vbool b => if b then "true" else "false"
  | vnull => "null"
  | varr _ => ""
  | vrec _ => "[object Object]"

/-- JavaScript strict equality `===` on two independently constructed value
trees (as in every call the program makes): primitives are compared by value, with
`NaN === NaN` false; `null === null` is true; two separately built arrays or
records are distinct references, hence never `===`. -/
def strictEq : Value → Value → Bool
  | vnull, vnull => true
  | vstr a, vstr b => a == b
  | vbool a, vbool b => a == b
  | vnum (JSNum.int a), vnum (JSNum.int b) => a == b
  | _, _ => false

/-- The divider ternary from `src/main.js` lines 69 and 102:
`isPrimitive(x) ? ' ' : Array.isArray(x) ? '' : '.'`. -/
def dividerFor (v : Value) : String :=
  if isPrimitive v then " " else if isArray v then "" else "."

/-- Embeds `.length` of an array. -/
def vlength : ValueList → Nat
  | ValueList.nil => 0
  | ValueList.cons _ t => vlength t + 1

/-- Property access `record[key]`: the value of the first binding of `key`,
if any (a real JavaScript object binds each key at most once). -/
def lookupField : FieldList → String → Option Value
  | FieldList.nil, _ => none
  | FieldList.cons k v t, key => if k == key then some v else lookupField t key

/-- Embeds `hasOwnProperty(key)`. -/
def hasKey (f : FieldList) (key : String) : Bool :=
  (lookupField f key).isSome

mutual

/-- Embeds `_assertEquals` from `src/main.js` lines 19-118, returning
`some message` where the source throws `Error(message)` and `none` where it
returns normally.  The checks appear in source order: identity short-circuit
(line 27), `typeof` mismatch (line 33), primitive strict inequality (line 39),
null checks (lines 45-51), arrays (lines 55-86), records (lines 88-117).
The final catch-all mirrors falling off the end of the function (equal). -/
def _assertEquals (expected actual : Value) : Option String :=
  if strictEq expected actual then none
  else if typeofStr expected != typeofStr actual then
    some (typeErrorMsg expected actual)
  else if isPrimitive expected && !strictEq expected actual then
    some ("\"" ++ displayString expected ++ "\" but found \"" ++ displayString actual ++ "\"")
  else if isNull expected && !isNull actual then
    some (typeErrorMsg expected actual)
  else if !isNull expected && isNull actual then
    some (typeErrorMsg expected actual)
  else
    match expected, actual with
    | varr es, varr as =>
      if vlength es != vlength as then
        some ("Array length " ++ toString (vlength es) ++ " but found " ++ toString (vlength as))
      else compareArr es as 0
    | varr _, _ => some (typeErrorMsg expected actual)
    | _, varr ys => some (typeErrorMsg expected (varr ys))
    | vrec fe, vrec fa =>
      (match compareFields fe fa with
       | some msg => some msg
       | none => extraKeys fa fe)
    | _, _ => none

/-- The array element loop of `src/main.js` lines 63-73, carrying the running
index `i`: recursively check the elements pairwise; on the first failure wrap the
inner message as `[i]` + divider + message and stop.  Called only on lists of
equal length (the length check precedes it). -/
def compareArr : ValueList → ValueList → Nat → Option String
  | ValueList.nil, _, _ => none
  | ValueList.cons e es, aas, i =>
    match aas with
    | ValueList.nil => none
    | ValueList.cons a as =>
      match _assertEquals e a with
      | some msg => some ("[" ++ toString i ++ "]" ++ dividerFor e ++ msg)
      | none => compareArr es as (i + 1)

/-- The expected-key loop of `src/main.js` lines 90-107: for each expected key
in enumeration order, fail with `<k> but was not found` if `actual` lacks it;
otherwise recursively check the two field values, wrapping a failure as
key + divider + message, and stop at the first failure. -/
def compareFields : FieldList → FieldList → Option String
  | FieldList.nil, _ => none
  | FieldList.cons k v rest, fa =>
    match lookupField fa k with
    | none => some (k ++ " but was not found")
    | some w =>
      match _assertEquals v w with
      | some msg => some (k ++ dividerFor v ++ msg)
      | none => compareFields rest fa

/-- The extra-key loop of `src/main.js` lines 110-116: scan `actual`'s keys
(first argument) and fail with `<k> to be missing but was found` at the first
key absent from `expected` (second argument). -/
def extraKeys : FieldList → FieldList → Option String
  | FieldList.nil, _ => none
  | FieldList.cons k _ rest, fe =>
    if hasKey fe k then extraKeys rest fe
    else some (k ++ " to be missing but was found")

end

/-- Embeds `assertEquals` from `src/main.js` lines 10-17: on a discrepancy the raised
message is the label followed by `' Expected '` and the inner message;
`none` means the assertion succeeded silently. -/
def assertEquals (message : String) (expected actual : Value) : Option String :=
  (_assertEquals expected actual).map (fun m => message ++ " Expected " ++ m)

/-- Embeds `runTest` from `src/main.js` lines 147-153: run `assertEquals`, never
propagating a failure; on failure push the failure message onto the
caller-supplied sink, otherwise leave the sink unchanged. -/
def runTest (message : String) (assertionFailures : List String)
    (expected actual : Value) : List String :=
  match assertEquals message expected actual with
  | some m => assertionFailures ++ [m]
  | none => assertionFailures

/-! ### Derived notions used to state the claims -/

/-- The six shape classifications of spec §4.1 step 2. -/
inductive ShapeClass where
  | cnull : ShapeClass
  | carray : ShapeClass
  | crecord : ShapeClass
  | cstring : ShapeClass
  | cnumber : ShapeClass
  | cboolean : ShapeClass
deriving DecidableEq, Repr

/-- Classify a value into one of the six shapes. -/
def classify : Value → ShapeClass
  | vnull => ShapeClass.cnull
  | varr _ => ShapeClass.carray
  | vrec _ => ShapeClass.crecord
  | vstr _ => ShapeClass.cstring
  | vnum _ => ShapeClass.cnumber
  | vbool _ => ShapeClass.cboolean

/-- Both values are primitives of the same kind. -/
def samePrimKind : Value → Value → Bool
  | vstr _, vstr _ => true
  | vnum _, vnum _ => true
  | vbool _, vbool _ => true
  | _, _ => false

/-- Concatenation of element lists. -/
def vappend : ValueList → ValueList → ValueList
  | ValueList.nil, ys => ys
  | ValueList.cons x t, ys => ValueList.cons x (vappend t ys)

/-- Concatenation of field lists. -/
def fappend : FieldList → FieldList → FieldList
  | FieldList.nil, ys => ys
  | FieldList.cons k v t, ys => FieldList.cons k v (fappend t ys)

/-- Pointwise: the two lists have the same length and every aligned pair of
elements compares with no discrepancy. -/
def allEqNone : ValueList → ValueList → Bool
  | ValueList.nil, ValueList.nil => true
  | ValueList.cons e es, ValueList.cons a as => (_assertEquals e a).isNone && allEqNone es as
  | _, _ => false

/-- Every key bound in the first list is present in the second. -/
def allKeysIn : FieldList → FieldList → Bool
  | FieldList.nil, _ => true
  | FieldList.cons k _ t, full => hasKey full k && allKeysIn t full

/-- Every binding `(k, v)` of the first list is what looking `k` up in the
second list yields. -/
def Resolves : FieldList → FieldList → Prop
  | FieldList.nil, _ => True
  | FieldList.cons k v t, full => lookupField full k = some v ∧ Resolves t full

mutual

/-- The value is legal in the sense of spec §3: every record is a genuine
mapping, binding each key at most once. -/
def wfV : Value → Bool
  | varr es => wfL es
  | vrec fs => wfF fs
  | _ => true

def wfL : ValueList → Bool
  | ValueList.nil => true
  | ValueList.cons v t => wfV v && wfL t

def wfF : FieldList → Bool
  | FieldList.nil => true
  | FieldList.cons k v t => !hasKey t k && wfV v && wfF t

end

mutual

/-- No `NaN` occurs anywhere in the value. -/
def noNaNV : Value → Bool
  | vnum JSNum.nan => false
  | varr es => noNaNL es
  | vrec fs => noNaNF fs
  | _ => true

def noNaNL : ValueList → Bool
  | ValueList.nil => true
  | ValueList.cons v t => noNaNV v && noNaNL t

def noNaNF : FieldList → Bool
  | FieldList.nil => true
  | FieldList.cons _ v t => noNaNV v && noNaNF t

end

/-! ### The concrete test objects of `src/main.js` lines 157-187 -/

/-- The inner record `{ propA: 'a', propB: 'b' }`. -/
def innerAB : Value :=
  vrec (FieldList.cons "propA" (vstr "a")
    (FieldList.cons "propB" (vstr "b") FieldList.nil))

/-- The inner record `{ propA: 'a', propB: 'c' }` of `complexObject2`. -/
def innerAC : Value :=
  vrec (FieldList.cons "propA" (vstr "a")
    (FieldList.cons "propB" (vstr "c") FieldList.nil))

/-- The test object `complexObject1`: `{ propA: 1, propB: { propA: [1, {propA:'a',propB:'b'}, 3],
propB: 1, propC: 2 } }`. -/
def complexObject1 : Value :=
  vrec (FieldList.cons "propA" (vnum (JSNum.int 1))
    (FieldList.cons "propB"
      (vrec (FieldList.cons "propA"
          (varr (ValueList.cons (vnum (JSNum.int 1))
            (ValueList.cons innerAB
              (ValueList.cons (vnum (JSNum.int 3)) ValueList.nil))))
        (FieldList.cons "propB" (vnum (JSNum.int 1))
          (FieldList.cons "propC" (vnum (JSNum.int 2)) FieldList.nil))))
      FieldList.nil))

/-- The test object `complexObject2`: like `complexObject1` but the nested `propB` is `'c'`
and the inner record lists `propB` before `propA`. -/
def complexObject2 : Value :=
  vrec (FieldList.cons "propA" (vnum (JSNum.int 1))
    (FieldList.cons "propB"
      (vrec (FieldList.cons "propB" (vnum (JSNum.int 1))
        (FieldList.cons "propA"
          (varr (ValueList.cons (vnum (JSNum.int 1))
            (ValueList.cons innerAC
              (ValueList.cons (vnum (JSNum.int 3)) ValueList.nil))))
          (FieldList.cons "propC" (vnum (JSNum.int 2)) FieldList.nil))))
      FieldList.nil))

/-- The test object `complexObject3`: like `complexObject1` but missing `propB.propC`. -/
def complexObject3 : Value :=
  vrec (FieldList.cons "propA" (vnum (JSNum.int 1))
    (FieldList.cons "propB"
      (vrec (FieldList.cons "propA"
          (varr (ValueList.cons (vnum (JSNum.int 1))
            (ValueList.cons innerAB
              (ValueList.cons (vnum (JSNum.int 3)) ValueList.nil))))
        (FieldList.cons "propB" (vnum (JSNum.int 1)) FieldList.nil)))
      FieldList.nil))

/-- Elements 0 and 1 of the arrays used to exhibit the first-failure rule. -/
def idx01 : ValueList :=
  ValueList.cons (vstr "s0") (ValueList.cons (vstr "s1") ValueList.nil)

/-- Elements 3-5 of the expected-side array: the element at overall index 5
is `"y1"`. -/
def tail345a : ValueList :=
  ValueList.cons (vstr "s3") (ValueList.cons (vstr "s4")
    (ValueList.cons (vstr "y1") ValueList.nil))

/-- Elements 3-5 of the actual-side array: the element at overall index 5
is `"y2"`, a second difference that must never be reported. -/
def tail345b : ValueList :=
  ValueList.cons (vstr "s3") (ValueList.cons (vstr "s4")
    (ValueList.cons (vstr "y2") ValueList.nil))

/-! ### Helper lemmas -/

theorem cmp_arr_arr (es as : ValueList) :
    _assertEquals (varr es) (varr as) =
      if vlength es != vlength as then
        some ("Array length " ++ toString (vlength es) ++ " but found " ++ toString (vlength as))
      else compareArr es as 0 := rfl

theorem cmp_rec_rec (fe fa : FieldList) :
    _assertEquals (vrec fe) (vrec fa) =
      (match compareFields fe fa with
       | some msg => some msg
       | none => extraKeys fa fe) := rfl

theorem compareArr_cons (e a : Value) (es as : ValueList) (i : Nat) :
    compareArr (ValueList.cons e es) (ValueList.cons a as) i =
      (match _assertEquals e a with
       | some msg => some ("[" ++ toString i ++ "]" ++ dividerFor e ++ msg)
       | none => compareArr es as (i + 1)) := rfl

theorem compareFields_cons (k : String) (v : Value) (rest fa : FieldList) :
    compareFields (FieldList.cons k v rest) fa =
      (match lookupField fa k with
       | none => some (k ++ " but was not found")
       | some w =>
         match _assertEquals v w with
         | some msg => some (k ++ dividerFor v ++ msg)
         | none => compareFields rest fa) := rfl

theorem extraKeys_cons (k : String) (v : Value) (rest fe : FieldList) :
    extraKeys (FieldList.cons k v rest) fe =
      if hasKey fe k then extraKeys rest fe
      else some (k ++ " to be missing but was found") := rfl

theorem vlength_append : (xs ys : ValueList) →
    vlength (vappend xs ys) = vlength xs + vlength ys
  | ValueList.nil, ys => by simp [vappend, vlength]
  | ValueList.cons x t, ys => by simp [vappend, vlength, vlength_append t ys]; omega

theorem allEqNone_length : (xs ys : ValueList) → allEqNone xs ys = true →
    vlength xs = vlength ys
  | ValueList.nil, ValueList.nil, _ => rfl
  | ValueList.nil, ValueList.cons _ _, h => by simp [allEqNone] at h
  | ValueList.cons _ _, ValueList.nil, h => by simp [allEqNone] at h
  | ValueList.cons x xt, ValueList.cons y yt, h => by
      simp only [allEqNone, Bool.and_eq_true] at h
      simp [vlength, allEqNone_length xt yt h.2]

theorem lookupField_eq_none (fa : FieldList) (k : String) (h : hasKey fa k = false) :
    lookupField fa k = none := by
  unfold hasKey at h
  cases hl : lookupField fa k with
  | none => rfl
  | some w => rw [hl] at h; simp at h

theorem compareArr_first_fail : (pre pre' rest rest' : ValueList) → (e a : Value) →
    (m : String) → (i : Nat) → allEqNone pre pre' = true → _assertEquals e a = some m →
    compareArr (vappend pre (ValueList.cons e rest)) (vappend pre' (ValueList.cons a rest')) i
      = some ("[" ++ toString (i + vlength pre) ++ "]" ++ dividerFor e ++ m)
  | ValueList.nil, ValueList.nil, rest, rest', e, a, m, i, _, hm => by
      simp [vappend, vlength, compareArr, hm]
  | ValueList.nil, ValueList.cons _ _, _, _, _, _, _, _, hpre, _ => by
      simp [allEqNone] at hpre
  | ValueList.cons _ _, ValueList.nil, _, _, _, _, _, _, hpre, _ => by
      simp [allEqNone] at hpre
  | ValueList.cons p pt, ValueList.cons p' pt', rest, rest', e, a, m, i, hpre, hm => by
      simp only [allEqNone, Bool.and_eq_true, Option.isNone_iff_eq_none] at hpre
      have ih := compareArr_first_fail pt pt' rest rest' e a m (i + 1) hpre.2 hm
      simp only [vappend, compareArr_cons, hpre.1, ih, vlength]
      have harith : i + 1 + vlength pt = i + (vlength pt + 1) := by omega
      rw [harith]

theorem compareFields_append_none : (pre l fa : FieldList) →
    compareFields pre fa = none →
    compareFields (fappend pre l) fa = compareFields l fa
  | FieldList.nil, l, fa, _ => by simp [fappend]
  | FieldList.cons k v t, l, fa, h => by
      rw [compareFields_cons] at h
      cases hl : lookupField fa k with
      | none => simp only [hl] at h; exact absurd h (by simp)
      | some w =>
        simp only [hl] at h
        cases hc : _assertEquals v w with
        | some msg => simp only [hc] at h; exact absurd h (by simp)
        | none =>
          simp only [hc] at h
          simp only [fappend, compareFields_cons, hl, hc]
          exact compareFields_append_none t l fa h

theorem extraKeys_append : (pre l fe : FieldList) → allKeysIn pre fe = true →
    extraKeys (fappend pre l) fe = extraKeys l fe
  | FieldList.nil, l, fe, _ => by simp [fappend]
  | FieldList.cons k v t, l, fe, h => by
      simp only [allKeysIn, Bool.and_eq_true] at h
      simp only [fappend, extraKeys, h.1, if_true]
      exact extraKeys_append t l fe h.2

theorem hasKey_cons (k k' : String) (v : Value) (t : FieldList) :
    hasKey (FieldList.cons k v t) k' = (k == k' || hasKey t k') := by
  unfold hasKey
  cases h : k == k' with
  | true =>
    have hk : k = k' := by simpa using h
    subst hk
    simp [lookupField]
  | false =>
    have hk : ¬ (k = k') := by simpa using h
    simp [lookupField, hasKey, hk, h]

theorem resolves_skip : (sub : FieldList) → (full : FieldList) → (k : String) → (v : Value) →
    Resolves sub full → hasKey sub k = false → Resolves sub (FieldList.cons k v full)
  | FieldList.nil, _, _, _, _, _ => trivial
  | FieldList.cons k' v' t, full, k, v, hres, hk => by
      have hres' : lookupField full k' = some v' ∧ Resolves t full := hres
      rw [hasKey_cons] at hk
      simp only [Bool.or_eq_false_iff] at hk
      refine ⟨?_, resolves_skip t full k v hres'.2 hk.2⟩
      have hne : ¬ (k = k') := by
        intro hkk
        subst hkk
        simp at hk
      simp [lookupField, hne, hres'.1]

theorem resolves_self : (fs : FieldList) → wfF fs = true → Resolves fs fs
  | FieldList.nil, _ => trivial
  | FieldList.cons k v t, h => by
      simp only [wfF, Bool.and_eq_true, Bool.not_eq_true'] at h
      obtain ⟨⟨hk, hv⟩, ht⟩ := h
      refine ⟨by simp [lookupField], ?_⟩
      exact resolves_skip t t k v (resolves_self t ht) hk

theorem allKeysIn_skip : (sub full : FieldList) → (k : String) → (v : Value) →
    allKeysIn sub full = true → allKeysIn sub (FieldList.cons k v full) = true
  | FieldList.nil, _, _, _, _ => rfl
  | FieldList.cons k' v' t, full, k, v, h => by
      simp only [allKeysIn, Bool.and_eq_true] at h ⊢
      refine ⟨?_, allKeysIn_skip t full k v h.2⟩
      rw [hasKey_cons]
      simp [h.1]

theorem allKeysIn_self : (fs : FieldList) → allKeysIn fs fs = true
  | FieldList.nil => rfl
  | FieldList.cons k v t => by
      simp only [allKeysIn, Bool.and_eq_true]
      refine ⟨by simp [hasKey_cons], ?_⟩
      exact allKeysIn_skip t t k v (allKeysIn_self t)

theorem extraKeys_all_in : (sub fe : FieldList) → allKeysIn sub fe = true →
    extraKeys sub fe = none
  | FieldList.nil, _, _ => rfl
  | FieldList.cons k v t, fe, h => by
      simp only [allKeysIn, Bool.and_eq_true] at h
      simp only [extraKeys, h.1, if_true]
      exact extraKeys_all_in t fe h.2

mutual

theorem refl_cmp_val : (v : Value) → wfV v = true → noNaNV v = true →
    _assertEquals v v = none
  | vnull, _, _ => rfl
  | vstr s, _, _ => by unfold _assertEquals; simp [strictEq]
  | vnum JSNum.nan, _, h => by simp [noNaNV] at h
  | vnum (JSNum.int n), _, _ => by unfold _assertEquals; simp [strictEq]
  | vbool b, _, _ => by unfold _assertEquals; simp [strictEq]
  | varr es, h1, h2 => by
      rw [cmp_arr_arr]
      simp only [bne_self_eq_false, Bool.false_eq_true, if_false]
      exact refl_cmp_list es 0 (by simpa [wfV] using h1) (by simpa [noNaNV] using h2)
  | vrec fs, h1, h2 => by
      rw [cmp_rec_rec]
      have hf : compareFields fs fs = none :=
        refl_cmp_fields fs fs (resolves_self fs (by simpa [wfV] using h1))
          (by simpa [wfV] using h1) (by simpa [noNaNV] using h2)
      rw [hf]
      exact extraKeys_all_in fs fs (allKeysIn_self fs)

theorem refl_cmp_list : (es : ValueList) → (i : Nat) → wfL es = true → noNaNL es = true →
    compareArr es es i = none
  | ValueList.nil, _, _, _ => rfl
  | ValueList.cons v t, i, h1, h2 => by
      simp only [wfL, Bool.and_eq_true] at h1
      simp only [noNaNL, Bool.and_eq_true] at h2
      have hv := refl_cmp_val v h1.1 h2.1
      rw [compareArr_cons, hv]
      exact refl_cmp_list t (i + 1) h1.2 h2.2

theorem refl_cmp_fields : (sub full : FieldList) → Resolves sub full → wfF sub = true →
    noNaNF sub = true → compareFields sub full = none
  | FieldList.nil, _, _, _, _ => rfl
  | FieldList.cons k v t, full, hres, h1, h2 => by
      have hres' : lookupField full k = some v ∧ Resolves t full := hres
      simp only [wfF, Bool.and_eq_true, Bool.not_eq_true'] at h1
      simp only [noNaNF, Bool.and_eq_true] at h2
      simp only [compareFields_cons, hres'.1, refl_cmp_val v h1.1.2 h2.1]
      exact refl_cmp_fields t full hres'.2 h1.2 h2.2

end

/-! ### Claims -/

/-- C1: when a recursive comparison of an array element or record field fails,
the inner discrepancy message is wrapped with the path segment (`[i]` for an
array index, the bare key for a record field) followed by the divider chosen
by the shape of the expected child — `""` for an array child, `" "` for a
primitive child, `"."` for a record child — and comparing `complexObject1`
against the variant whose nested `propB.propA[1].propB` is `'c'` yields the
discrepancy message `propB.propA[1].propB "b" but found "c"` exactly (hence
ending exactly in that text). -/
theorem wrap_divider_path :
    (∀ (e a : Value) (es as : ValueList) (i : Nat) (m : String),
       _assertEquals e a = some m →
       compareArr (ValueList.cons e es) (ValueList.cons a as) i
         = some ("[" ++ toString i ++ "]" ++ dividerFor e ++ m)) ∧
    (∀ (k : String) (v w : Value) (rest fa : FieldList) (m : String),
       lookupField fa k = some w → _assertEquals v w = some m →
       compareFields (FieldList.cons k v rest) fa = some (k ++ dividerFor v ++ m)) ∧
    (∀ es, dividerFor (varr es) = "") ∧
    (∀ s, dividerFor (vstr s) = " ") ∧
    (∀ n, dividerFor (vnum n) = " ") ∧
    (∀ b, dividerFor (vbool b) = " ") ∧
    (∀ fs, dividerFor (vrec fs) = ".") ∧
    _assertEquals complexObject1 complexObject2
      = some "propB.propA[1].propB \"b\" but found \"c\"" := by
  refine ⟨?_, ?_, fun _ => rfl, fun _ => rfl, fun _ => rfl, fun _ => rfl, fun _ => rfl, rfl⟩
  · intro e a es as i m hm
    rw [compareArr_cons, hm]
  · intro k v w rest fa m hl hm
    simp only [compareFields_cons, hl, hm]

/-- Witness for C1: a failing string element at index 1 is wrapped as
`[1] ` plus the inner message. -/
theorem wrap_divider_path_witness :
    _assertEquals (vstr "x") (vstr "z") = some "\"x\" but found \"z\"" ∧
    compareArr (ValueList.cons (vstr "x") ValueList.nil)
        (ValueList.cons (vstr "z") ValueList.nil) 1
      = some "[1] \"x\" but found \"z\"" :=
  ⟨rfl, wrap_divider_path.1 (vstr "x") (vstr "z") ValueList.nil ValueList.nil 1
    "\"x\" but found \"z\"" rfl⟩

/-- C2: whenever the shape classifications of the two values differ, the
result is the Type Mismatch message naming both classifications (so value
level checks are never reached); in particular `null` versus `{}` gives
`type null but found type Object` and `1` versus `"1"` gives
`type number but found type string`. -/
theorem type_mismatch_precedence (e a : Value) (h : classify e ≠ classify a) :
    _assertEquals e a
      = some ("type " ++ getTypeName e ++ " but found type " ++ getTypeName a) := by
  cases e <;> cases a <;> first
    | exact absurd rfl h
    | rfl
    | (cases ‹JSNum› <;> rfl)

/-- Witness for C2: `compare(null, {})` and `compare(1, "1")`. -/
theorem type_mismatch_precedence_witness :
    classify vnull ≠ classify (vrec FieldList.nil) ∧
    _assertEquals vnull (vrec FieldList.nil) = some "type null but found type Object" ∧
    classify (vnum (JSNum.int 1)) ≠ classify (vstr "1") ∧
    _assertEquals (vnum (JSNum.int 1)) (vstr "1")
      = some "type number but found type string" :=
  ⟨by decide, type_mismatch_precedence vnull (vrec FieldList.nil) (by decide),
   by decide, type_mismatch_precedence (vnum (JSNum.int 1)) (vstr "1") (by decide)⟩

/-- C3 counterexample: the claim fails at the legal primitive number `NaN`:
`compare(NaN, NaN)` reports a discrepancy, because the identity short-circuit
uses strict equality and `NaN === NaN` is false. -/
theorem reflexivity_nan_counterexample :
    _assertEquals (vnum JSNum.nan) (vnum JSNum.nan)
        = some "\"NaN\" but found \"NaN\"" ∧
    (_assertEquals (vnum JSNum.nan) (vnum JSNum.nan)).isNone = false :=
  ⟨rfl, rfl⟩

/-- C3 (amended): for every legal Value whose records bind each key at most
once and which contains no occurrence of `NaN`, comparing the value with
itself reports no discrepancy. -/
theorem compare_refl_legal (v : Value) (h1 : wfV v = true) (h2 : noNaNV v = true) :
    _assertEquals v v = none :=
  refl_cmp_val v h1 h2

/-- Witness for C3: the nested `complexObject1` is legal and `NaN`-free, and
comparing it with itself reports no discrepancy. -/
theorem compare_refl_legal_witness :
    wfV complexObject1 = true ∧ noNaNV complexObject1 = true ∧
    _assertEquals complexObject1 complexObject1 = none :=
  ⟨by decide, by decide, compare_refl_legal complexObject1 (by decide) (by decide)⟩

/-- C4: for equal-length arrays, if every element before position `|pre|`
compares with no discrepancy and the elements at that position produce
discrepancy `m`, the whole comparison reports exactly the wrapped discrepancy
of that lowest differing index — whatever the later elements (`rest`, `rest'`)
are, so no element past the first failing index affects the result. -/
theorem array_first_failure_only (pre pre' rest rest' : ValueList) (e a : Value)
    (m : String) (hr : vlength rest = vlength rest')
    (hpre : allEqNone pre pre' = true) (hm : _assertEquals e a = some m) :
    _assertEquals (varr (vappend pre (ValueList.cons e rest)))
        (varr (vappend pre' (ValueList.cons a rest')))
      = some ("[" ++ toString (vlength pre) ++ "]" ++ dividerFor e ++ m) := by
  have hlen : vlength pre = vlength pre' := allEqNone_length pre pre' hpre
  rw [cmp_arr_arr, vlength_append, vlength_append]
  have hcond : (vlength pre + vlength (ValueList.cons e rest)
      != vlength pre' + vlength (ValueList.cons a rest')) = false := by
    simp [vlength, hlen, hr]
  simp only [hcond, Bool.false_eq_true, if_false]
  have hmain := compareArr_first_fail pre pre' rest rest' e a m 0 hpre hm
  rw [hmain, Nat.zero_add]

/-- Witness for C4: two six-element arrays differing at indices 2 and 5;
only the index-2 discrepancy is reported. -/
theorem array_first_failure_only_witness :
    vlength tail345a = vlength tail345b ∧
    allEqNone idx01 idx01 = true ∧
    _assertEquals (vstr "x") (vstr "z") = some "\"x\" but found \"z\"" ∧
    _assertEquals (varr (vappend idx01 (ValueList.cons (vstr "x") tail345a)))
        (varr (vappend idx01 (ValueList.cons (vstr "z") tail345b)))
      = some "[2] \"x\" but found \"z\"" :=
  ⟨rfl, by decide, rfl,
   array_first_failure_only idx01 idx01 tail345a tail345b (vstr "x") (vstr "z")
     "\"x\" but found \"z\"" rfl (by decide) rfl⟩

/-- C5: two primitives of the same kind that are not strictly equal produce
the Value Mismatch message quoting both values. -/
theorem primitive_value_mismatch (e a : Value) (hk : samePrimKind e a = true)
    (hne : strictEq e a = false) :
    _assertEquals e a
      = some ("\"" ++ displayString e ++ "\" but found \"" ++ displayString a ++ "\"") := by
  cases e <;> cases a <;> first
    | (unfold _assertEquals; simp [typeofStr, isPrimitive, hne]; done)
    | simp [samePrimKind] at hk

/-- Witness for C5: `compare("abcdef", "abc")` yields
`"abcdef" but found "abc"`. -/
theorem primitive_value_mismatch_witness :
    samePrimKind (vstr "abcdef") (vstr "abc") = true ∧
    strictEq (vstr "abcdef") (vstr "abc") = false ∧
    _assertEquals (vstr "abcdef") (vstr "abc") = some "\"abcdef\" but found \"abc\"" :=
  ⟨rfl, by decide, primitive_value_mismatch (vstr "abcdef") (vstr "abc") rfl (by decide)⟩

/-- C6: comparing two records, if every earlier expected key matched and `k`
is the first expected key absent from the actual record, the result is the
Missing Key message `<k> but was not found` — independent of `k`'s value `v`
and of all later expected keys `rest`; and `complexObject1` against the
variant missing `propB.propC` yields the message
`propB.propC but was not found` exactly (hence ending exactly in it). -/
theorem missing_key_report :
    (∀ (pre : FieldList) (k : String) (v : Value) (rest fa : FieldList),
      compareFields pre fa = none → hasKey fa k = false →
      _assertEquals (vrec (fappend pre (FieldList.cons k v rest))) (vrec fa)
        = some (k ++ " but was not found")) ∧
    _assertEquals complexObject1 complexObject3 = some "propB.propC but was not found" := by
  refine ⟨?_, rfl⟩
  intro pre k v rest fa hpre hk
  have hfields : compareFields (fappend pre (FieldList.cons k v rest)) fa
      = some (k ++ " but was not found") := by
    rw [compareFields_append_none pre (FieldList.cons k v rest) fa hpre,
      compareFields_cons, lookupField_eq_none fa k hk]
  rw [cmp_rec_rec, hfields]

/-- Witness for C6: expected `{a: null, b: null}` against actual `{a: null}`:
key `a` matches, key `b` is missing. -/
theorem missing_key_report_witness :
    compareFields (FieldList.cons "a" vnull FieldList.nil)
        (FieldList.cons "a" vnull FieldList.nil) = none ∧
    hasKey (FieldList.cons "a" vnull FieldList.nil) "b" = false ∧
    _assertEquals
        (vrec (fappend (FieldList.cons "a" vnull FieldList.nil)
          (FieldList.cons "b" vnull FieldList.nil)))
        (vrec (FieldList.cons "a" vnull FieldList.nil))
      = some "b but was not found" :=
  ⟨rfl, by decide,
   missing_key_report.1 (FieldList.cons "a" vnull FieldList.nil) "b" vnull
     FieldList.nil (FieldList.cons "a" vnull FieldList.nil) rfl (by decide)⟩

/-- C7: the Extra Key scan runs only after every expected key was found and
compared equal (`compareFields fe fa = none`); it then reports, for the first
actual key `k` not present in expected (all actual keys before it being
present), the message `<k> to be missing but was found`. -/
theorem extra_key_after_all_match (fe pre : FieldList) (k : String) (v : Value)
    (rest : FieldList)
    (hall : compareFields fe (fappend pre (FieldList.cons k v rest)) = none)
    (hpre : allKeysIn pre fe = true) (hk : hasKey fe k = false) :
    _assertEquals (vrec fe) (vrec (fappend pre (FieldList.cons k v rest)))
      = some (k ++ " to be missing but was found") := by
  rw [cmp_rec_rec, hall]
  rw [extraKeys_append pre (FieldList.cons k v rest) fe hpre, extraKeys_cons, hk]
  simp

/-- Witness for C7: spec scenario 10 in miniature — expected `{a: null}`
against actual `{a: null, b: null}`: all expected keys match and the surplus
key `b` is reported. -/
theorem extra_key_after_all_match_witness :
    compareFields (FieldList.cons "a" vnull FieldList.nil)
        (fappend (FieldList.cons "a" vnull FieldList.nil)
          (FieldList.cons "b" vnull FieldList.nil)) = none ∧
    allKeysIn (FieldList.cons "a" vnull FieldList.nil)
        (FieldList.cons "a" vnull FieldList.nil) = true ∧
    hasKey (FieldList.cons "a" vnull FieldList.nil) "b" = false ∧
    _assertEquals (vrec (FieldList.cons "a" vnull FieldList.nil))
        (vrec (fappend (FieldList.cons "a" vnull FieldList.nil)
          (FieldList.cons "b" vnull FieldList.nil)))
      = some "b to be missing but was found" :=
  ⟨by decide, by decide, by decide,
   extra_key_after_all_match (FieldList.cons "a" vnull FieldList.nil)
     (FieldList.cons "a" vnull FieldList.nil) "b" vnull FieldList.nil
     (by decide) (by decide) (by decide)⟩

/-- C8: arrays of different lengths produce exactly the Length Mismatch
message, whatever their elements are (no element is compared). -/
theorem array_length_mismatch (es as : ValueList) (h : vlength es ≠ vlength as) :
    _assertEquals (varr es) (varr as)
      = some ("Array length " ++ toString (vlength es) ++ " but found "
          ++ toString (vlength as)) := by
  rw [cmp_arr_arr]
  have hcond : (vlength es != vlength as) = true := by simpa using h
  rw [hcond]
  simp

/-- Witness for C8: `compare(["a","b"], ["a","b","c"])` yields
`Array length 2 but found 3`. -/
theorem array_length_mismatch_witness :
    vlength (ValueList.cons (vstr "a") (ValueList.cons (vstr "b") ValueList.nil)) ≠
      vlength (ValueList.cons (vstr "a") (ValueList.cons (vstr "b")
        (ValueList.cons (vstr "c") ValueList.nil))) ∧
    _assertEquals
        (varr (ValueList.cons (vstr "a") (ValueList.cons (vstr "b") ValueList.nil)))
        (varr (ValueList.cons (vstr "a") (ValueList.cons (vstr "b")
          (ValueList.cons (vstr "c") ValueList.nil))))
      = some "Array length 2 but found 3" :=
  ⟨by decide,
   array_length_mismatch
     (ValueList.cons (vstr "a") (ValueList.cons (vstr "b") ValueList.nil))
     (ValueList.cons (vstr "a") (ValueList.cons (vstr "b")
       (ValueList.cons (vstr "c") ValueList.nil))) (by decide)⟩

/-- C9: `runTest` is a total function (it never raises); when the comparison
finds discrepancy `m` it appends exactly `<label> Expected <m>` to the sink
and nothing else, and when the comparison finds none the sink is returned
unchanged. -/
theorem runTest_sink_behavior (label : String) (sink : List String) (e a : Value) :
    (∀ m, _assertEquals e a = some m →
      runTest label sink e a = sink ++ [label ++ " Expected " ++ m]) ∧
    (_assertEquals e a = none → runTest label sink e a = sink) := by
  constructor
  · intro m hm
    simp [runTest, assertEquals, hm]
  · intro h
    simp [runTest, assertEquals, h]

/-- Witness for C9: the source's Test 02 appends its decorated message to an
empty sink, and Test 01 leaves the sink unchanged. -/
theorem runTest_sink_behavior_witness :
    _assertEquals (vstr "abcdef") (vstr "abc") = some "\"abcdef\" but found \"abc\"" ∧
    runTest "Test 02: " [] (vstr "abcdef") (vstr "abc")
      = ["Test 02:  Expected \"abcdef\" but found \"abc\""] ∧
    _assertEquals (vstr "abc") (vstr "abc") = none ∧
    runTest "Test 01: " [] (vstr "abc") (vstr "abc") = [] :=
  ⟨rfl,
   (runTest_sink_behavior "Test 02: " [] (vstr "abcdef") (vstr "abc")).1
     "\"abcdef\" but found \"abc\"" rfl,
   rfl,
   (runTest_sink_behavior "Test 01: " [] (vstr "abc") (vstr "abc")).2 rfl⟩

/-- C10: `compare(NaN, NaN)` does not report equal: the identity short-circuit
and the primitive check both use strict equality, under which `NaN` differs
from itself, so the result is the Value Mismatch `"NaN" but found "NaN"`. -/
theorem nan_self_value_mismatch :
    (_assertEquals (vnum JSNum.nan) (vnum JSNum.nan)).isNone = false ∧
    _assertEquals (vnum JSNum.nan) (vnum JSNum.nan)
      = some "\"NaN\" but found \"NaN\"" :=
  ⟨rfl, rfl⟩
